import Mathlib

/-!
Verification of the backend orchestration service in `src/gui/server/index.ts`
(tis-aidga GUI server): the source-artifact resolver `resolveSourcePath`,
the per-line progress classifier inside the `/api/generate` handler, the
generation-process orchestrator (event stream over server-sent events), and
the external CLI invocations.

Shallow embedding conventions:
- The filesystem is an explicit read-only value `FS`: `ex` models
  `fs.existsSync`, `read` models `fs.readFileSync(.., utf-8)` on a path, and
  `find` models the `execSync(find .. -maxdepth 5 -name .. | head -1)` probe
  whose trimmed output is either returned or an exception is thrown
  (`Except.error`).
- Node `path.join` is modelled on already-normalised segments as
  concatenation with a single separator.
- JavaScript strings are Lean `String`s; paths and subprocess output are
  assumed newline-free where the JS regexes use `.` (which excludes
  newlines).  `\s` is modelled by `Char.isWhitespace`, `\d` by
  `Char.isDigit`, and the `i` regex flag by comparison through
  `Char.toLower` (the markers are ASCII).
- The event wiring of the `/api/generate` handler assumes the standard Node
  child-process semantics: the `close` handler fires exactly once when a
  successfully spawned process exits, and the `error` handler fires exactly
  once when the executable cannot be started at all.
-/

/-- True when the character list `p` is a prefix of `l`, by exact character
equality.  Helper for the substring test below. -/
def charsBeginWith : List Char → List Char → Bool
  | [], _ => true
  | _ :: _, [] => false
  | p :: ps, c :: cs => p == c && charsBeginWith ps cs

/-- True when the character list `pat` occurs contiguously inside `l`. -/
def charsHave (pat : List Char) : List Char → Bool
  | [] => pat.isEmpty
  | c :: cs => charsBeginWith pat (c :: cs) || charsHave pat cs

/-- Model of the JavaScript `String.prototype.includes`: `hasSub s pat` is
true when `pat` occurs as a contiguous substring of `s`. -/
def hasSub (s pat : String) : Bool :=
  charsHave pat.toList s.toList

/-- Model of the JavaScript `String.prototype.trim`: drop leading and
trailing whitespace characters. -/
def jsTrim (s : String) : String :=
  String.mk
    (((s.toList.dropWhile Char.isWhitespace).reverse.dropWhile
        Char.isWhitespace).reverse)

/-- Model of Node `path.join` restricted to the normalised segments used by
the server: join with a single separator. -/
def pathJoin (a b : String) : String :=
  a ++ "/" ++ b

/-- Everything after the first occurrence of the pattern `pat` in the
character list, or `none` when the pattern does not occur. -/
def afterFirst (pat : List Char) : List Char → Option (List Char)
  | [] => if pat.isEmpty then some [] else none
  | c :: cs =>
    if charsBeginWith pat (c :: cs) then some (List.drop pat.length (c :: cs))
    else afterFirst pat cs

/-- Model of `remotePath.match(/\/work\/(.+)$/)` from `resolveSourcePath`
step 2 (src/gui/server/index.ts:72): everything after the first occurrence
of the anchor segment "/work/", provided that suffix is nonempty (the regex
requires at least one character after the anchor). -/
def workSuffix (remotePath : String) : Option String :=
  match afterFirst "/work/".toList remotePath.toList with
  | none => none
  | some suf => if suf.isEmpty then none else some (String.mk suf)

/-- Splitting a character list at every newline, keeping empty segments:
the char-level model of the JavaScript `text.split("\n")`. -/
def splitLinesChars : List Char → List (List Char)
  | [] => [[]]
  | c :: cs =>
    if c == '\n' then [] :: splitLinesChars cs
    else
      match splitLinesChars cs with
      | [] => [[c]]
      | h :: t => (c :: h) :: t

/-- Model of the JavaScript `text.split("\n")` on one stdout chunk. -/
def splitLines (s : String) : List String :=
  (splitLinesChars s.toList).map String.mk

/-- Ambient configuration of the server: `projectRoot` models the constant
`PROJECT_ROOT` and `localSourceRoot` models the environment variable
`LOCAL_SOURCE_ROOT` (empty string when unset, as in the source default). -/
structure Config where
  projectRoot : String
  localSourceRoot : String
  deriving DecidableEq

/-- Read-only filesystem snapshot seen by one request.  `ex` models
`fs.existsSync`; `read` models `fs.readFileSync(p, utf-8)`; `find root name`
models the `execSync` recursive search (`find root -maxdepth 5 -name name
-type f | head -1`, trimmed), where `Except.error` is a thrown exception. -/
structure FS where
  ex : String → Bool
  read : String → String
  find : String → String → Except String String

/-- Embedding of `resolveSourcePath` (src/gui/server/index.ts:63-107):
probe the remote path as-is; then the LOCAL_SOURCE_ROOT remapping of the
suffix after the "/work/" anchor; then `PROJECT_ROOT/filename` and
`PROJECT_ROOT/src/filename`; then the depth-bounded recursive `find`, whose
result is itself checked for existence and whose exceptions are swallowed.
Returns `none` (the JS `null`) when every strategy fails. -/
def resolveSourcePath (cfg : Config) (fs : FS) (remotePath filename : String) :
    Option String :=
  if fs.ex remotePath then some remotePath
  else
    let step2 : Option String :=
      if !(cfg.localSourceRoot == "") then
        match workSuffix remotePath with
        | some rel =>
          let localPath := pathJoin cfg.localSourceRoot rel
          if fs.ex localPath then some localPath else none
        | none => none
      else none
    match step2 with
    | some p => some p
    | none =>
      let searchPaths :=
        [pathJoin cfg.projectRoot filename,
         pathJoin (pathJoin cfg.projectRoot "src") filename]
      match searchPaths.find? (fun p => fs.ex p) with
      | some p => some p
      | none =>
        match fs.find cfg.projectRoot filename with
        | .error _ => none
        | .ok findResult =>
          if !(findResult == "") && fs.ex findResult then some findResult
          else none

/-- The candidate produced by resolver strategy 2: defined only when an
override root is configured and the remote path contains the "/work/"
anchor with a nonempty suffix. -/
def overrideCandidate (cfg : Config) (remotePath : String) : Option String :=
  if !(cfg.localSourceRoot == "") then
    (workSuffix remotePath).map (fun rel => pathJoin cfg.localSourceRoot rel)
  else none

/-- The candidate produced by resolver strategy 4: the trimmed output of the
bounded recursive `find`, when it did not throw and printed a nonempty
line. -/
def findCandidate (cfg : Config) (fs : FS) (filename : String) : Option String :=
  match fs.find cfg.projectRoot filename with
  | .error _ => none
  | .ok r => if r == "" then none else some r

/-- The ordered list of candidate paths the four resolver strategies probe:
(1) the remote path as-is, (2) the override remapping, (3) the two sibling
locations under the project root, (4) the recursive-search hit. -/
def candidateList (cfg : Config) (fs : FS) (remotePath filename : String) :
    List String :=
  [remotePath]
  ++ (overrideCandidate cfg remotePath).toList
  ++ [pathJoin cfg.projectRoot filename,
      pathJoin (pathJoin cfg.projectRoot "src") filename]
  ++ (findCandidate cfg fs filename).toList

/-- The candidates of strategies 1-3 only; used to state that an exception
thrown by the strategy-4 probe leaves the earlier strategies intact. -/
def earlyCandidateList (cfg : Config) (remotePath filename : String) :
    List String :=
  [remotePath]
  ++ (overrideCandidate cfg remotePath).toList
  ++ [pathJoin cfg.projectRoot filename,
      pathJoin (pathJoin cfg.projectRoot "src") filename]

/-- A progress event pushed on the server-sent-event channel by the
`/api/generate` handler: the JSON objects written by `sendEvent`
(src/gui/server/index.ts:269-271), tagged by their `type` field. -/
inductive Event where
  | status (message : String)
  | log (message : String) (isError : Bool)
  | complete (success : Bool) (exitCode : Int) (driverCode : String)
      (outputFile : String)
  | error (message : String)
  deriving DecidableEq

/-- Case-insensitive literal match: strips the lowercase pattern `p` from
the front of `cs`, comparing each text character through `Char.toLower`,
and returns the remainder on success. -/
def stripCI : List Char → List Char → Option (List Char)
  | [], cs => some cs
  | _ :: _, [] => none
  | p :: ps, c :: cs => if c.toLower == p then stripCI ps cs else none

/-- One attempt of the regex `/Iteration\s+(\d+)/i` anchored at the front of
`cs`: the literal `Iteration` case-insensitively, at least one whitespace
character, then the maximal nonempty digit run, which is the captured
group. -/
def matchIterAt (cs : List Char) : Option String :=
  match stripCI "iteration".toList cs with
  | none => none
  | some rest =>
    match rest with
    | [] => none
    | c :: _ =>
      if c.isWhitespace then
        let afterWS := rest.dropWhile (fun ch => ch.isWhitespace)
        let digits := afterWS.takeWhile (fun ch => ch.isDigit)
        if digits.isEmpty then none else some (String.mk digits)
      else none

/-- Leftmost-match search for `/Iteration\s+(\d+)/i`: try every start
position from the left, as the JavaScript regex engine does. -/
def iterScan : List Char → Option String
  | [] => none
  | c :: cs =>
    match matchIterAt (c :: cs) with
    | some n => some n
    | none => iterScan cs

/-- Model of `line.match(/Iteration\s+(\d+)/i)` from the stdout handler
(src/gui/server/index.ts:308): the digit string captured by the first
case-insensitive occurrence of `Iteration <digits>`, if any. -/
def iterNum (line : String) : Option String :=
  iterScan line.toList

/-- Embedding of the per-line classification in the stdout data handler
(src/gui/server/index.ts:302-319): an ordered chain of case-sensitive
`includes` tests, first match winning; a line containing `Iteration` with
no case-insensitive `Iteration <digits>` occurrence produces no event; any
other nonblank line produces a `log` event carrying the trimmed line; a
blank line produces nothing. -/
def classifyLine (line : String) : Option Event :=
  if hasSub line "Generating driver" then
    some (.status "Generating initial driver code...")
  else if hasSub line "Running TIS" then
    some (.status "Validating with TIS Analyzer...")
  else if hasSub line "Iteration" then
    match iterNum line with
    | some n => some (.status ("Refinement iteration " ++ n ++ "..."))
    | none => none
  else if hasSub line "SUCCESS" then
    some (.status "Driver generation successful!")
  else if hasSub line "FAILED" then
    some (.status "Driver generation failed")
  else if !(jsTrim line == "") then
    some (.log (jsTrim line) false)
  else none

/-- The query parameters of one `/api/generate` request
(src/gui/server/index.ts:258): each field is absent (`none`) or a string;
`model` and `maxIterations` get defaults when absent. -/
structure GenQuery where
  project : Option String
  filename : Option String
  functionName : Option String
  model : Option String
  maxIterations : Option String
  deriving DecidableEq

/-- JavaScript truthiness of an optional string: `undefined` and the empty
string are falsy. -/
def truthy : Option String → Bool
  | none => false
  | some s => !(s == "")

/-- The parameter validation of the generate handler
(src/gui/server/index.ts:260): `project`, `filename` and `functionName`
must all be truthy. -/
def validQuery (q : GenQuery) : Bool :=
  truthy q.project && truthy q.filename && truthy q.functionName

/-- One chunk of subprocess output, in arrival order: a `data` event on the
stdout or stderr stream of the child process. -/
inductive ProcItem where
  | out (chunk : String)
  | err (chunk : String)
  deriving DecidableEq

/-- The observable behaviour of one `spawn` call: either the executable
could not be started at all (the child `error` event, carrying the error
message), or the process ran, produced its output chunks in order, and
exited with the given code (the child `close` event). -/
inductive ProcResult where
  | spawnError (message : String)
  | runs (items : List ProcItem) (exitCode : Int)
  deriving DecidableEq

/-- The request-scoped artifact path `drivers/gui_<functionName>.c`
(src/gui/server/index.ts:275). -/
def outFile (functionName : String) : String :=
  "drivers/gui_" ++ functionName ++ ".c"

/-- The discrete argument token list passed to `spawn` for a generation
(src/gui/server/index.ts:276-287). -/
def genArgs (project filename functionName model maxIterations : String) :
    List String :=
  ["gen", project, filename, functionName,
   "--model", model,
   "--max-iterations", maxIterations,
   "--output", outFile functionName,
   "--with-logs",
   "--context", "function",
   "-v"]

/-- How the external CLI is invoked: `spawnCmd` is a `spawn` call with an
executable and discrete argument tokens; `shellCmd` is an `execSync` call
with a single shell command string. -/
inductive Invocation where
  | spawnCmd (exe : String) (args : List String)
  | shellCmd (command : String)
  deriving DecidableEq

/-- The argument list built by the `/api/init` handler
(src/gui/server/index.ts:129-133): `init <dbPath>`, optionally
`--name <projectName>` when that field is truthy, then `-v`. -/
def initArgs (dbPath : String) (projectName : Option String) : List String :=
  ["init", dbPath]
  ++ (match projectName with
      | some n => if !(n == "") then ["--name", n] else []
      | none => [])
  ++ ["-v"]

/-- The `/api/init` invocation (src/gui/server/index.ts:135): an `execSync`
of the single string `tisaidga <args joined by spaces>` - the request
fields are interpolated into a shell command string. -/
def initInvocation (dbPath : String) (projectName : Option String) :
    Invocation :=
  .shellCmd ("tisaidga " ++ String.intercalate " " (initArgs dbPath projectName))

/-- The `/api/projects/:project/files` invocation
(src/gui/server/index.ts:181): an `execSync` of a single interpolated shell
string. -/
def listFilesInvocation (project : String) : Invocation :=
  .shellCmd ("tisaidga list " ++ project ++ " -v")

/-- The `/api/generate` invocation (src/gui/server/index.ts:289): a `spawn`
with discrete argument tokens. -/
def genInvocation (project filename functionName model maxIterations : String) :
    Invocation :=
  .spawnCmd "tisaidga" (genArgs project filename functionName model maxIterations)

/-- The events emitted for one subprocess output chunk: a stdout chunk is
split on newlines and each piece classified (src/gui/server/index.ts:
296-320); a stderr chunk is pushed whole as one error-flagged log event
(src/gui/server/index.ts:322-325). -/
def chunkEvents : ProcItem → List Event
  | .out text => (splitLines text).filterMap classifyLine
  | .err text => [.log text true]

/-- The terminal event built by the child `close` handler
(src/gui/server/index.ts:327-342): read the artifact at
`PROJECT_ROOT/drivers/gui_<fn>.c` when it exists (empty text otherwise) and
emit `complete` with `success = (exitCode == 0)`. -/
def closeEvent (cfg : Config) (fs : FS) (functionName : String) (code : Int) :
    Event :=
  let outputPath := pathJoin cfg.projectRoot (outFile functionName)
  let driverCode := if fs.ex outputPath then fs.read outputPath else ""
  .complete (code == 0) code driverCode (outFile functionName)

/-- The response of one `/api/generate` request: an immediate 400 error
when validation fails, or the ordered list of events written to the
server-sent-event stream. -/
inductive GenResponse where
  | badRequest (error : String)
  | stream (events : List Event)
  deriving DecidableEq

/-- Embedding of the `/api/generate` handler (src/gui/server/index.ts:
257-353): validate the query; push the starting status event; then either
the single `error` event when the spawn failed, or the classified chunk
events in order followed by the single `complete` event from the `close`
handler. -/
def generateHandler (cfg : Config) (fs : FS) (q : GenQuery)
    (proc : ProcResult) : GenResponse :=
  if !(validQuery q) then
    .badRequest "project, filename, and functionName are required"
  else
    let functionName := q.functionName.getD ""
    let startEvent :=
      Event.status ("Starting driver generation for " ++ functionName ++ "...")
    match proc with
    | .spawnError msg => .stream [startEvent, .error msg]
    | .runs items code =>
      .stream (startEvent ::
        (items.flatMap chunkEvents ++ [closeEvent cfg fs functionName code]))

/-- A terminal event of the stream: `complete` or `error`. -/
def isTerminal : Event → Bool
  | .complete _ _ _ _ => true
  | .error _ => true
  | _ => false

/-- The happenings one `/api/generate` request can observe after the spawn,
in arrival order: subprocess stdout or stderr data, subprocess exit (the
child `close` event), a spawn failure (the child `error` event), and the
caller closing its channel (the request `close` event,
src/gui/server/index.ts:350). -/
inductive OEvent where
  | stdoutData (chunk : String)
  | stderrData (chunk : String)
  | procClose (code : Int)
  | spawnFail (message : String)
  | clientClose
  deriving DecidableEq

/-- The per-request orchestrator state: whether the subprocess is still
running and whether the outbound channel is still open. -/
structure OState where
  procAlive : Bool
  streamOpen : Bool
  deriving DecidableEq

/-- Whether handling the given event calls `child.kill()`.  In the source
the only call site of `child.kill()` is the request `close` handler
(src/gui/server/index.ts:349-352). -/
def killInvoked : OEvent → Bool
  | .clientClose => true
  | _ => false

/-- State transition of the registered handlers: the `close` handler of the
request kills the subprocess (a no-op on an already-exited process); the
child `close` handler marks the process exited and ends the response; the
child `error` handler ends the response; data handlers only emit events. -/
def stepO (s : OState) : OEvent → OState
  | .clientClose => { s with procAlive := false }
  | .procClose _ => { s with procAlive := false, streamOpen := false }
  | .spawnFail _ => { s with streamOpen := false }
  | .stdoutData _ => s
  | .stderrData _ => s

/-- Concrete configuration used by the evaluation witnesses. -/
def cfg0 : Config := ⟨"/root/proj", ""⟩

/-- Concrete filesystem in which only the generated artifact for the
function `foo` exists, with known contents. -/
def fs0 : FS :=
  ⟨fun p => p == "/root/proj/drivers/gui_foo.c",
   fun p => if p == "/root/proj/drivers/gui_foo.c" then "int driver(void);" else "",
   fun _ _ => .ok ""⟩

/-- Concrete valid generate query targeting the function `foo`. -/
def q0 : GenQuery := ⟨some "p", some "f.c", some "foo", none, none⟩

/-- The stub subprocess of the end-to-end test: prints the line
`Generating driver`, then the line `SUCCESS`, then exits 0. -/
def stubProc : ProcResult :=
  .runs [.out "Generating driver\n", .out "SUCCESS\n"] 0

/-- Concrete filesystem whose recursive-search probe throws and on which no
path exists. -/
def fsErr : FS := ⟨fun _ => false, fun _ => "", fun _ _ => .error "EACCES"⟩

/-- Two concrete filesystems with identical probe behaviour that differ in
their file contents. -/
def fsW1 : FS := ⟨fun p => p == "/a/x.c", fun _ => "alpha", fun _ _ => .ok ""⟩

/-- Second filesystem of the pair above. -/
def fsW2 : FS := ⟨fun p => p == "/a/x.c", fun _ => "beta", fun _ _ => .ok ""⟩

/-- Shared helper: the resolver equals the first-success scan of the
ordered candidate list of the four strategies. -/
theorem resolveSourcePath_eq_find (cfg : Config) (fs : FS)
    (remotePath filename : String) :
    resolveSourcePath cfg fs remotePath filename =
      (candidateList cfg fs remotePath filename).find? fs.ex := by
  unfold resolveSourcePath candidateList overrideCandidate findCandidate
  by_cases h1 : fs.ex remotePath
  · simp [h1, List.find?]
  · by_cases hroot : cfg.localSourceRoot == ""
    · simp only [h1, hroot]
      by_cases h3 : fs.ex (pathJoin cfg.projectRoot filename)
      · simp [h1, h3, List.find?]
      · by_cases h4 : fs.ex (pathJoin (pathJoin cfg.projectRoot "src") filename)
        · simp [h1, h3, h4, List.find?]
        · rcases hf : fs.find cfg.projectRoot filename with e | r
          · simp [h1, h3, h4, hf, List.find?]
          · by_cases hr : r == ""
            · simp [h1, h3, h4, hf, hr, List.find?]
            · by_cases hx : fs.ex r
              · simp [h1, h3, h4, hf, hr, hx, List.find?]
              · simp [h1, h3, h4, hf, hr, hx, List.find?]
    · rcases hws : workSuffix remotePath with _ | rel
      · simp only [h1, hroot, hws]
        by_cases h3 : fs.ex (pathJoin cfg.projectRoot filename)
        · simp [h1, h3, List.find?]
        · by_cases h4 : fs.ex (pathJoin (pathJoin cfg.projectRoot "src") filename)
          · simp [h1, h3, h4, List.find?]
          · rcases hf : fs.find cfg.projectRoot filename with e | r
            · simp [h1, h3, h4, hf, List.find?]
            · by_cases hr : r == ""
              · simp [h1, h3, h4, hf, hr, List.find?]
              · by_cases hx : fs.ex r
                · simp [h1, h3, h4, hf, hr, hx, List.find?]
                · simp [h1, h3, h4, hf, hr, hx, List.find?]
      · by_cases h2 : fs.ex (pathJoin cfg.localSourceRoot rel)
        · simp [h1, hroot, hws, h2, List.find?]
        · simp only [h1, hroot, hws, h2]
          by_cases h3 : fs.ex (pathJoin cfg.projectRoot filename)
          · simp [h1, hroot, hws, h2, h3, List.find?]
          · by_cases h4 : fs.ex (pathJoin (pathJoin cfg.projectRoot "src") filename)
            · simp [h1, hroot, hws, h2, h3, h4, List.find?]
            · rcases hf : fs.find cfg.projectRoot filename with e | r
              · simp [h1, hroot, hws, h2, h3, h4, hf, List.find?]
              · by_cases hr : r == ""
                · simp [h1, hroot, hws, h2, h3, h4, hf, hr, List.find?]
                · by_cases hx : fs.ex r
                  · simp [h1, hroot, hws, h2, h3, h4, hf, hr, hx, List.find?]
                  · simp [h1, hroot, hws, h2, h3, h4, hf, hr, hx, List.find?]

/-- C2: for every ResolutionRequest the resolver attempts the four
strategies in fixed order - the remote path as-is, the override remapping
of the suffix after the anchor, the two project-root sibling locations,
then the depth-bounded recursive search - and returns the first candidate
that exists on the filesystem, attempting no further strategy after one
succeeds. -/
theorem resolver_ordered_first_success (cfg : Config) (fs : FS)
    (remotePath filename : String) :
    resolveSourcePath cfg fs remotePath filename =
      (candidateList cfg fs remotePath filename).find? fs.ex :=
  resolveSourcePath_eq_find cfg fs remotePath filename

/-- C6: the resolver is total - every returned path exists at resolution
time, when every strategy fails it returns the explicit unresolved marker,
and an exception thrown by the recursive-search probe is swallowed: the
result is then exactly the first-success scan of the strategy 1-3
candidates, never a propagated failure. -/
theorem resolver_total_never_raises (cfg : Config) (fs : FS)
    (remotePath filename : String) :
    (∀ p, resolveSourcePath cfg fs remotePath filename = some p →
      fs.ex p = true) ∧
    ((candidateList cfg fs remotePath filename).find? fs.ex = none →
      resolveSourcePath cfg fs remotePath filename = none) ∧
    (∀ e, fs.find cfg.projectRoot filename = Except.error e →
      resolveSourcePath cfg fs remotePath filename =
        (earlyCandidateList cfg remotePath filename).find? fs.ex) := by
  refine ⟨?_, ?_, ?_⟩
  · intro p hp
    rw [resolveSourcePath_eq_find] at hp
    exact List.find?_some hp
  · intro h
    rw [resolveSourcePath_eq_find, h]
  · intro e he
    rw [resolveSourcePath_eq_find]
    have hsame : candidateList cfg fs remotePath filename =
        earlyCandidateList cfg remotePath filename := by
      simp [candidateList, earlyCandidateList, findCandidate, he]
    rw [hsame]

/-- Witness for C6: on a filesystem whose recursive search throws and where
nothing exists, the resolver still returns the scan of the early
candidates, which is the unresolved marker. -/
theorem resolver_total_never_raises_witness :
    fsErr.find cfg0.projectRoot "x.c" = Except.error "EACCES" ∧
    resolveSourcePath cfg0 fsErr "/nonexistent/x.c" "x.c" =
      (earlyCandidateList cfg0 "/nonexistent/x.c" "x.c").find? fsErr.ex ∧
    resolveSourcePath cfg0 fsErr "/nonexistent/x.c" "x.c" = none :=
  ⟨rfl,
   (resolver_total_never_raises cfg0 fsErr "/nonexistent/x.c" "x.c").2.2
     "EACCES" rfl,
   by decide⟩

/-- C9: the resolution result depends only on the observable filesystem
state - two resolver runs against filesystems whose probes agree return the
identical result, so resolving the same request twice with no filesystem
change in between is idempotent. -/
theorem resolver_idempotent (cfg : Config) (fs₁ fs₂ : FS)
    (remotePath filename : String)
    (hex : ∀ p, fs₁.ex p = fs₂.ex p)
    (hfind : fs₁.find cfg.projectRoot filename =
      fs₂.find cfg.projectRoot filename) :
    resolveSourcePath cfg fs₁ remotePath filename =
      resolveSourcePath cfg fs₂ remotePath filename := by
  unfold resolveSourcePath
  simp only [hex, hfind]

/-- Witness for C9: two filesystems with identical probes but different
contents resolve a concrete request identically. -/
theorem resolver_idempotent_witness :
    resolveSourcePath cfg0 fsW1 "/a/x.c" "x.c" =
      resolveSourcePath cfg0 fsW2 "/a/x.c" "x.c" :=
  resolver_idempotent cfg0 fsW1 fsW2 "/a/x.c" "x.c" (fun _ => rfl) rfl

/-- True when the line contains at least one of the five recognised marker
substrings of the classifier chain. -/
def anyMarker (line : String) : Bool :=
  hasSub line "Generating driver" || hasSub line "Running TIS" ||
  hasSub line "Iteration" || hasSub line "SUCCESS" || hasSub line "FAILED"

/-- Counterexample to C4: the guard of the iteration branch is the
case-sensitive `includes("Iteration")`, so the line `iteration 3` - which
matches `Iteration <N>` case-insensitively - is not mapped to a status
event but falls through to a log event. -/
theorem classifier_case_counterexample :
    iterNum "iteration 3" = some "3" ∧
    classifyLine "iteration 3" = some (Event.log "iteration 3" false) ∧
    classifyLine "iteration 3" ≠
      some (Event.status "Refinement iteration 3...") :=
  ⟨by decide, by decide, by decide⟩

/-- C4 (amended): the classifier checks the markers in fixed order, first
match winning: a line containing `Generating driver` yields the generating
status; otherwise `Running TIS` yields the validating status; otherwise a
line containing the case-sensitive substring `Iteration` whose first
case-insensitive `Iteration <N>` occurrence captures N yields the
refinement status for N; otherwise `SUCCESS` yields the success status;
otherwise `FAILED` yields the failure status - at most one event per
line. -/
theorem classifier_marker_map (line n : String) :
    (hasSub line "Generating driver" = true →
      classifyLine line =
        some (Event.status "Generating initial driver code...")) ∧
    (hasSub line "Generating driver" = false →
      hasSub line "Running TIS" = true →
      classifyLine line =
        some (Event.status "Validating with TIS Analyzer...")) ∧
    (hasSub line "Generating driver" = false →
      hasSub line "Running TIS" = false →
      hasSub line "Iteration" = true →
      iterNum line = some n →
      classifyLine line =
        some (Event.status ("Refinement iteration " ++ n ++ "..."))) ∧
    (hasSub line "Generating driver" = false →
      hasSub line "Running TIS" = false →
      hasSub line "Iteration" = false →
      hasSub line "SUCCESS" = true →
      classifyLine line =
        some (Event.status "Driver generation successful!")) ∧
    (hasSub line "Generating driver" = false →
      hasSub line "Running TIS" = false →
      hasSub line "Iteration" = false →
      hasSub line "SUCCESS" = false →
      hasSub line "FAILED" = true →
      classifyLine line = some (Event.status "Driver generation failed")) := by
  refine ⟨?_, ?_, ?_, ?_, ?_⟩
  · intro h1
    simp [classifyLine, h1]
  · intro h1 h2
    simp [classifyLine, h1, h2]
  · intro h1 h2 h3 h4
    simp [classifyLine, h1, h2, h3, h4]
  · intro h1 h2 h3 h4
    simp [classifyLine, h1, h2, h3, h4]
  · intro h1 h2 h3 h4 h5
    simp [classifyLine, h1, h2, h3, h4, h5]

/-- Witness for C4: the reference line `Iteration 3 of 5` takes the
iteration branch and yields the refinement status for 3. -/
theorem classifier_marker_map_witness :
    hasSub "Iteration 3 of 5" "Generating driver" = false ∧
    hasSub "Iteration 3 of 5" "Running TIS" = false ∧
    hasSub "Iteration 3 of 5" "Iteration" = true ∧
    iterNum "Iteration 3 of 5" = some "3" ∧
    classifyLine "Iteration 3 of 5" =
      some (Event.status "Refinement iteration 3...") :=
  ⟨by decide, by decide, by decide, by decide,
   (classifier_marker_map "Iteration 3 of 5" "3").2.2.1 (by decide) (by decide)
     (by decide) (by decide)⟩

/-- Counterexample to C5: the line `Iteration done` is non-blank and maps
to no recognised status, yet the classifier drops it entirely instead of
producing a log event; and the log event for `  x` carries the trimmed
line, not the raw line. -/
theorem fallthrough_counterexample :
    classifyLine "Iteration done" = none ∧
    classifyLine "  x" = some (Event.log "x" false) ∧
    classifyLine "  x" ≠ some (Event.log "  x" false) :=
  ⟨by decide, by decide, by decide⟩

/-- C5 (amended): classification is total and never raises; a blank line
produces no event; a non-blank line containing none of the marker
substrings produces exactly one log event carrying the trimmed line; and a
line whose first matching marker is the case-sensitive `Iteration` but that
has no case-insensitive `Iteration <digits>` occurrence produces no event
at all. -/
theorem classifier_total_fallthrough (line : String) :
    (jsTrim line = "" → anyMarker line = false → classifyLine line = none) ∧
    (anyMarker line = false → ¬(jsTrim line = "") →
      classifyLine line = some (Event.log (jsTrim line) false)) ∧
    (hasSub line "Generating driver" = false →
      hasSub line "Running TIS" = false →
      hasSub line "Iteration" = true →
      iterNum line = none →
      classifyLine line = none) := by
  refine ⟨?_, ?_, ?_⟩
  · intro ht hm
    simp only [anyMarker, Bool.or_eq_false_iff] at hm
    obtain ⟨⟨⟨⟨m1, m2⟩, m3⟩, m4⟩, m5⟩ := hm
    simp [classifyLine, m1, m2, m3, m4, m5, ht]
  · intro hm ht
    simp only [anyMarker, Bool.or_eq_false_iff] at hm
    obtain ⟨⟨⟨⟨m1, m2⟩, m3⟩, m4⟩, m5⟩ := hm
    simp [classifyLine, m1, m2, m3, m4, m5, ht]
  · intro h1 h2 h3 h4
    simp [classifyLine, h1, h2, h3, h4]

/-- Witness for C5: a generic compiler note falls through to a log event
and the empty line produces no event. -/
theorem classifier_total_fallthrough_witness :
    anyMarker "random compiler note" = false ∧
    ¬(jsTrim "random compiler note" = "") ∧
    classifyLine "random compiler note" =
      some (Event.log "random compiler note" false) ∧
    jsTrim "" = "" ∧ anyMarker "" = false ∧ classifyLine "" = none :=
  ⟨by decide, by decide,
   (classifier_total_fallthrough "random compiler note").2.1 (by decide)
     (by decide),
   by decide, by decide,
   (classifier_total_fallthrough "").1 (by decide) (by decide)⟩

/-- Every event produced by classifying one stdout line is a status or a
log event, never a terminal event. -/
theorem classifyLine_not_terminal (line : String) (e : Event)
    (h : classifyLine line = some e) : isTerminal e = false := by
  unfold classifyLine at h
  repeat' split at h
  all_goals first
    | exact Option.noConfusion h
    | (injection h with h; subst h; rfl)

/-- Every event produced for a subprocess output chunk is a status or a
log event, never a terminal event. -/
theorem chunkEvents_not_terminal (item : ProcItem) (e : Event)
    (h : e ∈ chunkEvents item) : isTerminal e = false := by
  cases item with
  | out text =>
    simp only [chunkEvents, List.mem_filterMap] at h
    obtain ⟨line, _, hline⟩ := h
    exact classifyLine_not_terminal line e hline
  | err text =>
    simp only [chunkEvents, List.mem_singleton] at h
    subst h
    rfl

/-- C3: every generation stream has exactly one terminal event, always
last: a single `complete` event carrying `success = (exitCode == 0)`, the
exit code, and the artifact text when the artifact exists (empty text
otherwise) when the subprocess ran and exited, or a single `error` event
with the failure message when it could not be started - never both. -/
theorem terminal_event_unique (cfg : Config) (fs : FS) (q : GenQuery)
    (proc : ProcResult) (hq : validQuery q = true) :
    ∃ es, generateHandler cfg fs q proc = GenResponse.stream es ∧
      (es.filter isTerminal).length = 1 ∧
      (∀ m, proc = ProcResult.spawnError m →
        es.getLast? = some (Event.error m)) ∧
      (∀ items code, proc = ProcResult.runs items code →
        es.getLast? = some (Event.complete (code == 0) code
          (if fs.ex (pathJoin cfg.projectRoot (outFile (q.functionName.getD "")))
            then fs.read (pathJoin cfg.projectRoot
              (outFile (q.functionName.getD "")))
            else "")
          (outFile (q.functionName.getD "")))) := by
  cases proc with
  | spawnError m =>
    refine ⟨[Event.status ("Starting driver generation for " ++
        q.functionName.getD "" ++ "..."), Event.error m], ?_, ?_, ?_, ?_⟩
    · simp [generateHandler, hq]
    · simp [isTerminal, List.filter]
    · intro m' hm'
      cases hm'
      rfl
    · intro items code hc
      exact absurd hc (by simp)
  | runs items code =>
    refine ⟨Event.status ("Starting driver generation for " ++
        q.functionName.getD "" ++ "...") ::
        (items.flatMap chunkEvents ++
          [closeEvent cfg fs (q.functionName.getD "") code]), ?_, ?_, ?_, ?_⟩
    · simp [generateHandler, hq]
    · have hmid : (items.flatMap chunkEvents).filter isTerminal = [] := by
        rw [List.filter_eq_nil_iff]
        intro e he
        rw [List.mem_flatMap] at he
        obtain ⟨item, -, hitem⟩ := he
        simp [chunkEvents_not_terminal item e hitem]
      simp [List.filter_cons, List.filter_append, hmid, isTerminal, closeEvent]
    · intro m hm
      exact absurd hm (by simp)
    · intro items' code' hc
      cases hc
      rw [show (Event.status ("Starting driver generation for " ++
          q.functionName.getD "" ++ "...") ::
          (items.flatMap chunkEvents ++
            [closeEvent cfg fs (q.functionName.getD "") code])) =
          ((Event.status ("Starting driver generation for " ++
            q.functionName.getD "" ++ "...") :: items.flatMap chunkEvents) ++
            [closeEvent cfg fs (q.functionName.getD "") code]) from by simp]
      rw [List.getLast?_concat]
      simp [closeEvent]

/-- Witness for C3: the stub run against the concrete filesystem has
exactly one terminal event, in last position. -/
theorem terminal_event_unique_witness :
    validQuery q0 = true ∧
    (∃ es, generateHandler cfg0 fs0 q0 stubProc = GenResponse.stream es ∧
      (es.filter isTerminal).length = 1 ∧
      (∀ m, stubProc = ProcResult.spawnError m →
        es.getLast? = some (Event.error m)) ∧
      (∀ items code, stubProc = ProcResult.runs items code →
        es.getLast? = some (Event.complete (code == 0) code
          (if fs0.ex (pathJoin cfg0.projectRoot
              (outFile (q0.functionName.getD "")))
            then fs0.read (pathJoin cfg0.projectRoot
              (outFile (q0.functionName.getD "")))
            else "")
          (outFile (q0.functionName.getD ""))))) :=
  ⟨by decide, terminal_event_unique cfg0 fs0 q0 stubProc (by decide)⟩

/-- Counterexample to C1: for the stub subprocess the handler emits four
events, not three - the stream opens with the starting status event pushed
before the spawn, which the claimed three-event sequence omits. -/
theorem stub_three_events_counterexample :
    generateHandler cfg0 fs0 q0 stubProc ≠
      GenResponse.stream
        [Event.status "Generating initial driver code...",
         Event.status "Driver generation successful!",
         Event.complete true 0 "int driver(void);" "drivers/gui_foo.c"] ∧
    generateHandler cfg0 fs0 q0 stubProc =
      GenResponse.stream
        [Event.status "Starting driver generation for foo...",
         Event.status "Generating initial driver code...",
         Event.status "Driver generation successful!",
         Event.complete true 0 "int driver(void);" "drivers/gui_foo.c"] :=
  ⟨by decide, by decide⟩

/-- C1 (amended): for a run whose subprocess prints the line `Generating
driver`, then the line `SUCCESS`, then exits 0 after writing the expected
artifact file, the emitted event stream is exactly the four events:
the starting status for the target function, status `Generating initial
driver code...`, status `Driver generation successful!`, and
`complete` with success and the artifact contents - in that order and with
no other events. -/
theorem stub_run_event_stream (cfg : Config) (fs : FS) (q : GenQuery)
    (hq : validQuery q = true)
    (hart : fs.ex (pathJoin cfg.projectRoot
      (outFile (q.functionName.getD ""))) = true) :
    generateHandler cfg fs q stubProc =
      GenResponse.stream
        [Event.status ("Starting driver generation for " ++
           q.functionName.getD "" ++ "..."),
         Event.status "Generating initial driver code...",
         Event.status "Driver generation successful!",
         Event.complete true 0
           (fs.read (pathJoin cfg.projectRoot
             (outFile (q.functionName.getD ""))))
           (outFile (q.functionName.getD ""))] := by
  have hchunks :
      [ProcItem.out "Generating driver\n",
       ProcItem.out "SUCCESS\n"].flatMap chunkEvents =
      [Event.status "Generating initial driver code...",
       Event.status "Driver generation successful!"] := by decide
  simp [generateHandler, stubProc, hq, closeEvent, hart, hchunks]

/-- Witness for C1: the amended stream equation evaluated on the concrete
stub run. -/
theorem stub_run_event_stream_witness :
    validQuery q0 = true ∧
    fs0.ex (pathJoin cfg0.projectRoot (outFile (q0.functionName.getD ""))) =
      true ∧
    generateHandler cfg0 fs0 q0 stubProc =
      GenResponse.stream
        [Event.status ("Starting driver generation for " ++
           q0.functionName.getD "" ++ "..."),
         Event.status "Generating initial driver code...",
         Event.status "Driver generation successful!",
         Event.complete true 0
           (fs0.read (pathJoin cfg0.projectRoot
             (outFile (q0.functionName.getD ""))))
           (outFile (q0.functionName.getD ""))] :=
  ⟨by decide, by decide, stub_run_event_stream cfg0 fs0 q0 (by decide) (by decide)⟩

/-- C10: for every validated generation request the first event on the
stream is the status `Starting driver generation for <functionName>...`,
pushed before the subprocess is spawned, so the stream is nonempty even
when the spawn fails. -/
theorem start_event_head (cfg : Config) (fs : FS) (q : GenQuery)
    (proc : ProcResult) (hq : validQuery q = true) :
    ∃ es, generateHandler cfg fs q proc = GenResponse.stream es ∧
      es.head? = some (Event.status ("Starting driver generation for " ++
        q.functionName.getD "" ++ "...")) ∧
      1 ≤ es.length := by
  cases proc with
  | spawnError m =>
    exact ⟨[Event.status ("Starting driver generation for " ++
        q.functionName.getD "" ++ "..."), Event.error m],
      by simp [generateHandler, hq], rfl, by simp⟩
  | runs items code =>
    exact ⟨Event.status ("Starting driver generation for " ++
        q.functionName.getD "" ++ "...") ::
        (items.flatMap chunkEvents ++
          [closeEvent cfg fs (q.functionName.getD "") code]),
      by simp [generateHandler, hq], rfl, by simp⟩

/-- Witness for C10: a concrete run whose spawn fails still begins with the
starting status event. -/
theorem start_event_head_witness :
    validQuery q0 = true ∧
    (∃ es, generateHandler cfg0 fs0 q0
        (ProcResult.spawnError "spawn tisaidga ENOENT") =
        GenResponse.stream es ∧
      es.head? = some (Event.status ("Starting driver generation for " ++
        q0.functionName.getD "" ++ "...")) ∧
      1 ≤ es.length) :=
  ⟨by decide,
   start_event_head cfg0 fs0 q0 (ProcResult.spawnError "spawn tisaidga ENOENT")
     (by decide)⟩

/-- Counterexample to C7: the `/api/init` handler interpolates its request
fields into a single shell command string passed to `execSync` - it is not
a list of discrete argument tokens, so a database path containing a space
is split by the shell. -/
theorem init_shell_string_counterexample :
    initInvocation "/tmp/my db.json" (some "proj") =
      Invocation.shellCmd "tisaidga init /tmp/my db.json --name proj -v" ∧
    initInvocation "/tmp/my db.json" (some "proj") ≠
      Invocation.spawnCmd "tisaidga"
        ["init", "/tmp/my db.json", "--name", "proj", "-v"] :=
  ⟨by decide, by decide⟩

/-- C7 (amended): the generation invocation passes its fields as discrete
argument tokens to `spawn`, in exactly the order `gen <project> <file>
<function> --model <m> --max-iterations <n> --output <path> --with-logs
--context function -v`; the `init` and `list` invocations instead join
their arguments into a single shell command string for `execSync`. -/
theorem gen_discrete_tokens (project filename functionName model
    maxIterations : String) :
    genInvocation project filename functionName model maxIterations =
      Invocation.spawnCmd "tisaidga"
        ["gen", project, filename, functionName,
         "--model", model,
         "--max-iterations", maxIterations,
         "--output", "drivers/gui_" ++ functionName ++ ".c",
         "--with-logs",
         "--context", "function",
         "-v"] := rfl

/-- C8: handling a caller disconnect kills the subprocess; the disconnect
handler is the only place a kill is issued; and a disconnect arriving after
the process already exited leaves the state unchanged - cancellation is a
no-op once the request has completed. -/
theorem cancellation_on_disconnect (s : OState) (e : OEvent) :
    (stepO s OEvent.clientClose).procAlive = false ∧
    (killInvoked e = true ↔ e = OEvent.clientClose) ∧
    (s.procAlive = false → stepO s OEvent.clientClose = s) := by
  refine ⟨rfl, ?_, ?_⟩
  · cases e <;> simp [killInvoked]
  · intro h
    cases s
    simp_all [stepO]

/-- Witness for C8: with the process already exited, a client disconnect
changes nothing. -/
theorem cancellation_on_disconnect_witness :
    (stepO ⟨false, true⟩ OEvent.clientClose).procAlive = false ∧
    (killInvoked OEvent.clientClose = true ↔
      OEvent.clientClose = OEvent.clientClose) ∧
    stepO ⟨false, true⟩ OEvent.clientClose = ⟨false, true⟩ :=
  have h := cancellation_on_disconnect ⟨false, true⟩ OEvent.clientClose
  ⟨h.1, h.2.1, h.2.2 rfl⟩
